import Mathlib

/-!
Verification of the audio-player repository's core logic: the playback
state machine of `src/components/audio-player/useAudioPlayer.ts`, the
drag/seek controller of `src/audio/ProgressBar.tsx`, the click-to-seek
handler of `WhatsAppAudioPlayerAdvanced.tsx`, and the `playAudioPromise`
helper of the `RoundAudioPlayer` component.

JavaScript numbers are modelled as `JSNum`: either a finite rational or
one of the IEEE special values `NaN`, `Infinity`, `-Infinity`, which the
code can produce through division by zero.  Each handler is embedded as a
pure function from its inputs (previous state, properties read from the
media element) to the next state together with a record of the external
effects it performs (callbacks invoked, values committed to the media
element, exceptions raised).
-/

/-- A JavaScript number: a finite rational or one of the special values
`NaN` / `Infinity` / `-Infinity` that arise from division by zero. -/
inductive JSNum where
  | fin (q : ℚ)
  | nan
  | posInf
  | negInf
deriving DecidableEq

/-- JavaScript multiplication on `JSNum` (only the sign conventions the
player's arithmetic can reach: `NaN` absorbs, `Infinity * 0 = NaN`). -/
def jsMul : JSNum → JSNum → JSNum
  | JSNum.nan, _ => JSNum.nan
  | _, JSNum.nan => JSNum.nan
  | JSNum.fin a, JSNum.fin b => JSNum.fin (a * b)
  | JSNum.fin a, JSNum.posInf =>
      if 0 < a then JSNum.posInf else if a < 0 then JSNum.negInf else JSNum.nan
  | JSNum.fin a, JSNum.negInf =>
      if 0 < a then JSNum.negInf else if a < 0 then JSNum.posInf else JSNum.nan
  | JSNum.posInf, JSNum.fin b =>
      if 0 < b then JSNum.posInf else if b < 0 then JSNum.negInf else JSNum.nan
  | JSNum.negInf, JSNum.fin b =>
      if 0 < b then JSNum.negInf else if b < 0 then JSNum.posInf else JSNum.nan
  | JSNum.posInf, JSNum.posInf => JSNum.posInf
  | JSNum.posInf, JSNum.negInf => JSNum.negInf
  | JSNum.negInf, JSNum.posInf => JSNum.negInf
  | JSNum.negInf, JSNum.negInf => JSNum.posInf

/-- JavaScript division of two finite numbers: `0/0 = NaN`,
`x/0 = ±Infinity` for `x ≠ 0`, otherwise exact rational division. -/
def jsDivQ (a b : ℚ) : JSNum :=
  if b = 0 then
    (if a = 0 then JSNum.nan else if 0 < a then JSNum.posInf else JSNum.negInf)
  else JSNum.fin (a / b)

/-- JavaScript `isFinite`. -/
def JSNum.isFiniteJ : JSNum → Bool
  | JSNum.fin _ => true
  | _ => false

/-- JavaScript `x || 0`: replaces `NaN` (and `0`, a fixpoint) by `0`. -/
def jsOrZero : JSNum → JSNum
  | JSNum.nan => JSNum.fin 0
  | x => x

/-- JavaScript `Math.round` on a finite number: round half toward
positive infinity. -/
def jsRound (q : ℚ) : ℤ := ⌊q + 1 / 2⌋

/-- JavaScript `Number.prototype.toFixed(2)` for a nonnegative finite
number: round to hundredths, half away from zero, and print with exactly
two decimals. -/
def toFixed2 (q : ℚ) : String :=
  let n : ℤ := ⌊q * 100 + 1 / 2⌋
  let ip : ℤ := n / 100
  let fp : ℕ := (n % 100).toNat
  toString ip ++ "." ++ (if fp < 10 then "0" else "") ++ toString fp

/-- `toFixed(2)` on a general `JSNum` (`NaN.toFixed(2) = "NaN"` etc.). -/
def jsToFixed2 : JSNum → String
  | JSNum.fin q => toFixed2 q
  | JSNum.nan => "NaN"
  | JSNum.posInf => "Infinity"
  | JSNum.negInf => "-Infinity"

/-! ## Playback state machine: `useAudioPlayer.ts` -/

/-- `AudioPlayerState` from `useAudioPlayer.ts` (lines 19-29). -/
structure AudioPlayerState where
  isPlaying : Bool
  currentTime : ℚ
  duration : ℚ
  buffered : ℚ
  volume : ℚ
  playbackRate : ℚ
  isLoading : Bool
  canPlay : Bool
  error : Option String
deriving DecidableEq

/-- Result of an event handler of the hook: the next state plus which of
the optional external callbacks were invoked. -/
structure HandlerResult where
  state : AudioPlayerState
  onEndedCalled : Bool
  onErrorCalled : Bool
deriving DecidableEq

/-- `handleEnded` (`useAudioPlayer.ts` lines 143-150): set
`isPlaying := false`, `currentTime := 0`, and invoke `onEnded`. -/
def handleEnded (s : AudioPlayerState) : HandlerResult :=
  { state := { s with isPlaying := false, currentTime := 0 },
    onEndedCalled := true,
    onErrorCalled := false }

/-- `handleError` (`useAudioPlayer.ts` lines 152-168).  Inputs are the
properties read off the event target: whether `target.error` is set, and
the target's `currentTime` and `duration`.  If the target has a media
error and `currentTime === duration`, route to `handleEnded`; otherwise
set the failure state and invoke `onError`. -/
def handleError (s : AudioPlayerState) (targetHasError : Bool)
    (targetCurrentTime targetDuration : ℚ) : HandlerResult :=
  if targetHasError = true ∧ targetCurrentTime = targetDuration then
    handleEnded s
  else
    let failState : AudioPlayerState :=
      { s with
        isLoading := false
        canPlay := false
        error := some "Failed to load audio" }
    { state := failState, onEndedCalled := false, onErrorCalled := true }

/-- Result of the `play` control: next state plus the effects on the
media element and the exception behaviour.  `notReadyRaised` records the
internal `throw new Error('Audio is not ready to play yet')`;
`threw` records whether any exception escapes `play()` to its caller;
`onErrorCalled` records whether the `onError` option was invoked. -/
structure PlayResult where
  state : AudioPlayerState
  playPrimitiveCalled : Bool
  loadCalled : Bool
  notReadyRaised : Bool
  onErrorCalled : Bool
  threw : Bool
deriving DecidableEq

/-- `play` (`useAudioPlayer.ts` lines 179-205).  Inputs: the current
state, the element's `readyState` (`HAVE_FUTURE_DATA = 3`), whether
`audio.error` is set (which triggers `audio.load()`), and whether the
asynchronous `audio.play()` promise rejects.  Both failure paths land in
the same `catch`, which performs the single `setState`. -/
def play (s : AudioPlayerState) (readyState : ℕ) (hasMediaError : Bool)
    (playRejects : Bool) : PlayResult :=
  let failState : AudioPlayerState :=
    { s with
      error := some "Failed to play audio"
      isLoading := false
      canPlay := false }
  if readyState < 3 ∧ s.canPlay = false then
    { state := failState, playPrimitiveCalled := false,
      loadCalled := hasMediaError, notReadyRaised := true,
      onErrorCalled := false, threw := false }
  else if playRejects then
    { state := failState, playPrimitiveCalled := true,
      loadCalled := hasMediaError, notReadyRaised := false,
      onErrorCalled := false, threw := false }
  else
    { state := s, playPrimitiveCalled := true,
      loadCalled := hasMediaError, notReadyRaised := false,
      onErrorCalled := false, threw := false }

/-- Effects of `seek` (`useAudioPlayer.ts` lines 212-215): the value
assigned to the media element's `currentTime`. -/
structure SeekEffect where
  committedTime : ℚ
deriving DecidableEq

/-- `seek` (`useAudioPlayer.ts` lines 212-215): assigns `time` to
`audioRef.current.currentTime` unmodified. -/
def seek (time : ℚ) : SeekEffect :=
  { committedTime := time }

/-- `setVolumeControl` (`useAudioPlayer.ts` lines 217-222): returns the
next state and the value assigned to the element's `volume`. -/
def setVolumeControl (s : AudioPlayerState) (newVolume : ℚ) :
    AudioPlayerState × ℚ :=
  let clampedVolume := max 0 (min 1 newVolume)
  ({ s with volume := clampedVolume }, clampedVolume)

/-! ## `RoundAudioPlayer.playAudioPromise` -/

/-- Effects of `playAudioPromise` from the `RoundAudioPlayer` component
(lines 157-171 of its file). -/
structure RoundPlayResult where
  loadCalled : Bool
  playPrimitiveCalled : Bool
  onPlayErrorCalled : Bool
  threw : Bool
deriving DecidableEq

/-- `playAudioPromise`: reload on a pending media error, call the play
primitive, and route a rejection to the optional `onPlayError` callback
(swallowing it otherwise).  No component state field is modified on
rejection. -/
def playAudioPromise (hasMediaError : Bool) (playRejects : Bool)
    (onPlayErrorProvided : Bool) : RoundPlayResult :=
  { loadCalled := hasMediaError,
    playPrimitiveCalled := true,
    onPlayErrorCalled := playRejects && onPlayErrorProvided,
    threw := false }

/-! ## Drag/seek controller: `ProgressBar.tsx` -/

/-- One rendered download-progress fragment (`DownloadProgress` in
`ProgressBar.tsx`): CSS `left` and `width` strings. -/
structure DownloadProgress where
  left : String
  width : String
deriving DecidableEq

/-- `ProgressBarState` (`ProgressBar.tsx` lines 20-26).  The source
declares `currentTimePos` optional but initializes it to `"0%"`; it is
modelled as always present. -/
structure ProgressBarState where
  isDraggingProgress : Bool
  currentTimePos : String
  hasDownloadProgressAnimation : Bool
  downloadProgressArr : List DownloadProgress
  waitingForSeekCallback : Bool
deriving DecidableEq

/-- `TimePosInfo` (`ProgressBar.tsx` lines 33-36). -/
structure TimePosInfo where
  currentTime : JSNum
  currentTimePos : String
deriving DecidableEq

/-- `getDuration` (`ProgressBar.tsx` lines 55-58): the `srcDuration`
property when supplied, else the element's `duration`. -/
def getDuration (audioDuration : ℚ) (srcDuration : Option ℚ) : ℚ :=
  match srcDuration with
  | none => audioDuration
  | some d => d

/-- `getCurrentProgress` (`ProgressBar.tsx` lines 61-89).  Inputs are the
properties the handler reads: whether `audio.src` starts with `"blob:"`,
whether `audio.src` is empty, the optional `srcDuration` property, the
element's `duration`, whether `audio.currentTime` is finite, whether the
progress-bar ref is non-null, the bounding rectangle's `left` and
`width`, and the pointer's x coordinate (`getPosX(event)`).  Returns
`none` exactly when the source would dereference a null ref. -/
def getCurrentProgress (srcIsBlob srcEmpty : Bool) (srcDuration : Option ℚ)
    (audioDuration : ℚ) (audioCtFinite refPresent : Bool)
    (rectLeft rectWidth posX : ℚ) : Option TimePosInfo :=
  let isSingleFileProgressiveDownload := !srcIsBlob && srcDuration.isNone
  if isSingleFileProgressiveDownload &&
      (srcEmpty || !audioCtFinite || !refPresent) then
    some { currentTime := JSNum.fin 0, currentTimePos := "0%" }
  else if refPresent = false then
    none
  else
    let maxRelativePos := rectWidth
    let relativePos0 := posX - rectLeft
    let relativePos :=
      if relativePos0 < 0 then 0
      else if relativePos0 > maxRelativePos then maxRelativePos
      else relativePos0
    let duration := getDuration audioDuration srcDuration
    some { currentTime := jsDivQ (duration * relativePos) maxRelativePos
           currentTimePos :=
             jsToFixed2 (jsMul (jsDivQ relativePos maxRelativePos)
               (JSNum.fin 100)) ++ "%" }

/-- Result of the pointer-down handler: next state, whether a drag
session started (window move/up listeners registered), and the value of
the `timeOnMouseMove` instance field afterwards. -/
structure MouseDownResult where
  state : ProgressBarState
  sessionStarted : Bool
  timeOnMouseMove : Option JSNum
deriving DecidableEq

/-- `handleMouseDownOrTouchStartProgressBar` (`ProgressBar.tsx` lines
96-115), applied to the `TimePosInfo` computed by `getCurrentProgress`:
only a finite `currentTime` starts a drag session. -/
def handleMouseDownOrTouchStart (s : ProgressBarState) (info : TimePosInfo) :
    MouseDownResult :=
  if info.currentTime.isFiniteJ then
    { state := { s with isDraggingProgress := true
                        currentTimePos := info.currentTimePos }
      sessionStarted := true
      timeOnMouseMove := some info.currentTime }
  else
    { state := s, sessionStarted := false, timeOnMouseMove := none }

/-- `handleAudioTimeUpdate` (`ProgressBar.tsx` lines 192-204), the body
invoked by the throttle wrapper on a delivered `timeupdate` event: while
a drag is in progress or a seek callback is pending it returns without
touching the state; otherwise it recomputes `currentTimePos` from the
element's `currentTime` and `getDuration`. -/
def handleAudioTimeUpdate (s : ProgressBarState)
    (audioCurrentTime duration : ℚ) : ProgressBarState :=
  if s.isDraggingProgress || s.waitingForSeekCallback then s
  else
    { s with
      currentTimePos :=
        jsToFixed2 (jsOrZero (jsMul (jsDivQ audioCurrentTime duration)
          (JSNum.fin 100))) ++ "%" }

/-- Effects of the pointer-up handler.  `committedTime` is the value the
handler assigns to `audio.currentTime` (none in the `onSeek` branch or on
an early return); `rethrown` records the `throw new Error(err)` issued
from the seek hook's rejection handler; `listenersRemoved` records
whether the window listeners for the session were unregistered.  The
state field reflects the state once the hook (when supplied) settles. -/
structure TouchUpResult where
  state : ProgressBarState
  committedTime : Option ℚ
  loadCalled : Bool
  onChangeCurrentTimeErrorCalled : Bool
  rethrown : Bool
  listenersRemoved : Bool
deriving DecidableEq

/-- `handleWindowMouseOrTouchUp` (`ProgressBar.tsx` lines 136-190).
Inputs: the state, the accumulated `timeOnMouseMove` together with its
finiteness, whether the `onSeek` hook is supplied and whether it
rejects, the element's `readyState`, whether `audio.load()` throws, and
whether `onChangeCurrentTimeError` is supplied.  In the `onSeek` branch
nothing is written to `audio.currentTime`; a rejection is rethrown (and
`waitingForSeekCallback` stays set).  Without a hook, a low ready state
or a non-finite time triggers `audio.load()` first; if that throws the
handler returns early (no `setState`, listeners left registered) after
invoking `onChangeCurrentTimeError` when present; otherwise the handler
assigns `newTime` to `audio.currentTime` once. -/
def handleWindowMouseOrTouchUp (s : ProgressBarState) (newTime : ℚ)
    (newTimeFinite : Bool) (onSeekProvided onSeekRejects : Bool)
    (readyState : ℕ) (loadThrows : Bool) (onChangeProvided : Bool) :
    TouchUpResult :=
  if onSeekProvided then
    { state := { s with isDraggingProgress := false
                        waitingForSeekCallback := onSeekRejects }
      committedTime := none
      loadCalled := false
      onChangeCurrentTimeErrorCalled := false
      rethrown := onSeekRejects
      listenersRemoved := true }
  else
    let needsLoad := readyState = 0 || readyState = 1 || !newTimeFinite
    if needsLoad && loadThrows then
      { state := s
        committedTime := none
        loadCalled := true
        onChangeCurrentTimeErrorCalled := onChangeProvided
        rethrown := false
        listenersRemoved := false }
    else
      { state := { s with isDraggingProgress := false }
        committedTime := some newTime
        loadCalled := needsLoad
        onChangeCurrentTimeErrorCalled := false
        rethrown := false
        listenersRemoved := true }

/-- The `Math.round(x) || 0` formatting used for each fragment of
`handleAudioDownloadProgressUpdate` (`NaN` becomes `0`, infinities keep
their JavaScript print form). -/
def roundOrZeroStr : JSNum → String
  | JSNum.fin q => toString (jsRound q)
  | JSNum.nan => "0"
  | JSNum.posInf => "Infinity"
  | JSNum.negInf => "-Infinity"

/-- `handleAudioDownloadProgressUpdate` (`ProgressBar.tsx` lines
206-226): map each buffered range `(start, end)` of the element to a
fragment with `left = Math.round((100 / duration) * start) || 0` percent
and `width = Math.round((100 / duration) * (end - start)) || 0`
percent. -/
def handleAudioDownloadProgressUpdate (duration : ℚ)
    (buffered : List (ℚ × ℚ)) : List DownloadProgress :=
  buffered.map fun r =>
    { left := roundOrZeroStr (jsMul (jsDivQ 100 duration)
        (JSNum.fin r.1)) ++ "%"
      width := roundOrZeroStr (jsMul (jsDivQ 100 duration)
        (JSNum.fin (r.2 - r.1))) ++ "%" }

/-- `handleWaveformClick` (`WhatsAppAudioPlayerAdvanced.tsx` lines
110-119): returns the time passed to `controls.seek`, or `none` when the
guard (`!waveformRef.current || state.duration === 0`) returns early. -/
def handleWaveformClick (refPresent : Bool) (duration rectLeft rectWidth
    clientX : ℚ) : Option JSNum :=
  if refPresent = false ∨ duration = 0 then none
  else
    let clickX := clientX - rectLeft
    some (jsMul (jsDivQ clickX rectWidth) (JSNum.fin duration))

/-! ## Sample states used by witnesses and counterexamples -/

/-- The hook's initial state (`useAudioPlayer.ts` lines 58-68, with the
default `volume = 1`, `playbackRate = 1`). -/
def apInitial : AudioPlayerState :=
  { isPlaying := false
    currentTime := 0
    duration := 0
    buffered := 0
    volume := 1
    playbackRate := 1
    isLoading := true
    canPlay := false
    error := none }

/-- A state after `canplay` fired: playable and no longer loading. -/
def apReady : AudioPlayerState :=
  { apInitial with canPlay := true, isLoading := false }

/-- The progress bar's initial state (`ProgressBar.tsx` lines 47-53). -/
def pbInitial : ProgressBarState :=
  { isDraggingProgress := false
    currentTimePos := "0%"
    hasDownloadProgressAnimation := false
    downloadProgressArr := []
    waitingForSeekCallback := false }

/-- A progress-bar state mid-drag. -/
def pbDragging : ProgressBarState :=
  { pbInitial with isDraggingProgress := true }

/-! ## Helper lemmas -/

/-- Unfolding of `getCurrentProgress` in the ordinary interactive case
(`src` nonempty and not a blob, no `srcDuration` property, finite
`audio.currentTime`, mounted ref). -/
theorem getCurrentProgress_simple (d rectLeft w posX : ℚ) :
    getCurrentProgress false false none d true true rectLeft w posX =
      some { currentTime :=
               jsDivQ (d * (if posX - rectLeft < 0 then 0
                 else if posX - rectLeft > w then w else posX - rectLeft)) w
             currentTimePos :=
               jsToFixed2 (jsMul (jsDivQ (if posX - rectLeft < 0 then 0
                 else if posX - rectLeft > w then w else posX - rectLeft) w)
                 (JSNum.fin 100)) ++ "%" } := rfl

/-! ## Claims -/

/-- Claim C1: while a drag session is active (`isDraggingProgress`) or a
seek-hook callback is pending (`waitingForSeekCallback`), delivering any
sequence of `timeupdate` events leaves the progress-bar state — in
particular the displayed `currentTimePos` — unchanged. -/
theorem timeupdate_ignored_while_dragging (s : ProgressBarState)
    (events : List (ℚ × ℚ))
    (h : s.isDraggingProgress = true ∨ s.waitingForSeekCallback = true) :
    events.foldl (fun st ev => handleAudioTimeUpdate st ev.1 ev.2) s = s ∧
    (events.foldl (fun st ev => handleAudioTimeUpdate st ev.1 ev.2)
        s).currentTimePos = s.currentTimePos := by
  have hstep : ∀ a b : ℚ, handleAudioTimeUpdate s a b = s := by
    intro a b
    unfold handleAudioTimeUpdate
    rcases h with h | h <;> simp [h]
  have hfold :
      events.foldl (fun st ev => handleAudioTimeUpdate st ev.1 ev.2) s = s := by
    induction events with
    | nil => rfl
    | cons e es ih => rw [List.foldl_cons, hstep e.1 e.2]; exact ih
  exact ⟨hfold, by rw [hfold]⟩

/-- Claim C1 witness: a flagged state absorbs two concrete `timeupdate`
events. -/
theorem timeupdate_ignored_while_dragging_witness :
    [((1 : ℚ), (10 : ℚ)), (2, 10)].foldl
      (fun st ev => handleAudioTimeUpdate st ev.1 ev.2) pbDragging =
      pbDragging :=
  (timeupdate_ignored_while_dragging pbDragging [(1, 10), (2, 10)]
    (Or.inl rfl)).1

/-- Claim C2: an `error` event whose target has a media error and
`currentTime === duration` behaves exactly as the `ended` handler
(`isPlaying := false`, `currentTime := 0`, `onEnded` invoked, no error
recorded); otherwise it sets `isLoading := false`, `canPlay := false`,
`error := "Failed to load audio"` and invokes `onError`. -/
theorem error_event_at_end_routes_to_ended (s : AudioPlayerState)
    (hasErr : Bool) (ct d : ℚ) :
    (hasErr = true → ct = d →
      (handleError s hasErr ct d).state.isPlaying = false ∧
      (handleError s hasErr ct d).state.currentTime = 0 ∧
      (handleError s hasErr ct d).state.error = s.error ∧
      (handleError s hasErr ct d).onEndedCalled = true ∧
      (handleError s hasErr ct d).onErrorCalled = false ∧
      handleError s hasErr ct d = handleEnded s) ∧
    (¬(hasErr = true ∧ ct = d) →
      (handleError s hasErr ct d).state.isLoading = false ∧
      (handleError s hasErr ct d).state.canPlay = false ∧
      (handleError s hasErr ct d).state.error = some "Failed to load audio" ∧
      (handleError s hasErr ct d).onErrorCalled = true ∧
      (handleError s hasErr ct d).onEndedCalled = false) := by
  constructor
  · intro h1 h2
    simp [handleError, h1, h2, handleEnded]
  · intro h
    simp only [handleError, if_neg h]
    simp

/-- Claim C2 witness: with a media error at `currentTime = duration = 5`
the ended route is taken; with `currentTime = 3 ≠ 5` the error route is
taken. -/
theorem error_event_at_end_routes_to_ended_witness :
    (handleError apInitial true 5 5).onEndedCalled = true ∧
    (handleError apInitial true 5 5).state.currentTime = 0 ∧
    (handleError apInitial true 3 5).onErrorCalled = true := by
  have h1 := (error_event_at_end_routes_to_ended apInitial true 5 5).1 rfl rfl
  have h2 := (error_event_at_end_routes_to_ended apInitial true 3 5).2
    (by norm_num)
  exact ⟨h1.2.2.2.1, h1.2.1, h2.2.2.2.1⟩

/-- Claim C3: `play()` with `readyState < HAVE_FUTURE_DATA` and
`canPlay = false` raises the internal not-ready error, never calls the
resource's play primitive, and ends in the failure state. -/
theorem play_not_ready_blocks_primitive (s : AudioPlayerState)
    (readyState : ℕ) (hasMediaError playRejects : Bool)
    (hrs : readyState < 3) (hcp : s.canPlay = false) :
    (play s readyState hasMediaError playRejects).playPrimitiveCalled =
      false ∧
    (play s readyState hasMediaError playRejects).notReadyRaised = true ∧
    (play s readyState hasMediaError playRejects).state.error =
      some "Failed to play audio" ∧
    (play s readyState hasMediaError playRejects).threw = false := by
  simp [play, hrs, hcp]

/-- Claim C3 witness: the initial state (`canPlay = false`) with
`readyState = 0`. -/
theorem play_not_ready_blocks_primitive_witness :
    (play apInitial 0 false false).playPrimitiveCalled = false ∧
    (play apInitial 0 false false).notReadyRaised = true ∧
    (play apInitial 0 false false).state.error =
      some "Failed to play audio" ∧
    (play apInitial 0 false false).threw = false :=
  play_not_ready_blocks_primitive apInitial 0 false false (by decide) rfl

/-- Claim C9: every failing `play()` — not-ready rejection or play
primitive rejection — performs a single state update that sets
`error := "Failed to play audio"`, `canPlay := false`,
`isLoading := false` and leaves every other field unchanged. -/
theorem play_failure_sets_only_error_fields (s : AudioPlayerState)
    (readyState : ℕ) (hasMediaError playRejects : Bool)
    (h : (readyState < 3 ∧ s.canPlay = false) ∨ playRejects = true) :
    (play s readyState hasMediaError playRejects).state.error =
      some "Failed to play audio" ∧
    (play s readyState hasMediaError playRejects).state.canPlay = false ∧
    (play s readyState hasMediaError playRejects).state.isLoading = false ∧
    (play s readyState hasMediaError playRejects).state.isPlaying =
      s.isPlaying ∧
    (play s readyState hasMediaError playRejects).state.currentTime =
      s.currentTime ∧
    (play s readyState hasMediaError playRejects).state.duration =
      s.duration ∧
    (play s readyState hasMediaError playRejects).state.buffered =
      s.buffered ∧
    (play s readyState hasMediaError playRejects).state.volume = s.volume ∧
    (play s readyState hasMediaError playRejects).state.playbackRate =
      s.playbackRate := by
  by_cases h1 : readyState < 3 ∧ s.canPlay = false
  · simp [play, h1]
  · rcases h with h | h
    · exact absurd h h1
    · simp [play, h1, h]

/-- Claim C9 witness: a rejected play from the ready state. -/
theorem play_failure_sets_only_error_fields_witness :
    (play apReady 4 false true).state.error =
      some "Failed to play audio" ∧
    (play apReady 4 false true).state.canPlay = false ∧
    (play apReady 4 false true).state.isLoading = false ∧
    (play apReady 4 false true).state.isPlaying = apReady.isPlaying ∧
    (play apReady 4 false true).state.currentTime = apReady.currentTime ∧
    (play apReady 4 false true).state.duration = apReady.duration ∧
    (play apReady 4 false true).state.buffered = apReady.buffered ∧
    (play apReady 4 false true).state.volume = apReady.volume ∧
    (play apReady 4 false true).state.playbackRate =
      apReady.playbackRate :=
  play_failure_sets_only_error_fields apReady 4 false true (Or.inr rfl)

/-- Claim C10: `setVolume(v)` applies `max(0, min(1, v))` to both the
element's volume and the state's volume, so the state's volume always
lies in `[0, 1]`. -/
theorem setVolume_clamps_to_unit_interval (s : AudioPlayerState) (v : ℚ) :
    (setVolumeControl s v).2 = max 0 (min 1 v) ∧
    (setVolumeControl s v).1.volume = max 0 (min 1 v) ∧
    0 ≤ (setVolumeControl s v).1.volume ∧
    (setVolumeControl s v).1.volume ≤ 1 := by
  refine ⟨rfl, rfl, ?_, ?_⟩
  · exact le_max_left 0 (min 1 v)
  · exact max_le (by norm_num) (min_le_left 1 v)

/-- Claim C4 counterexample: `seek(300)` with known duration `235`
commits `300` to the resource — `seek` does not clamp to
`[0, duration]`. -/
theorem seek_commits_unclamped_counterexample :
    (seek 300).committedTime = 300 ∧
    ¬ (seek 300).committedTime ≤ 235 := by
  refine ⟨rfl, ?_⟩
  norm_num [seek]

/-- Claim C4 amended: `seek` itself passes the time through unclamped,
but every commit originating from the drag controller is clamped by
construction: for `0 < duration`, `0 < width` and `t ∈ [0, duration]`,
a drag ending exactly at the position mapping to `t` computes the time
`t`, every pointer position computes a time in `[0, duration]`, and the
pointer-up handler (no hook, element ready, finite time) commits that
time exactly once, tearing the session down. -/
theorem drag_commit_clamped_in_range (d w rectLeft t : ℚ)
    (s : ProgressBarState) (onChangeProvided : Bool)
    (hd : 0 < d) (hw : 0 < w) (ht0 : 0 ≤ t) (htd : t ≤ d) :
    (∃ info, getCurrentProgress false false none d true true rectLeft w
        (rectLeft + t * w / d) = some info ∧
        info.currentTime = JSNum.fin t) ∧
    (∀ posX, ∃ info, getCurrentProgress false false none d true true
        rectLeft w posX = some info ∧
        ∃ c, info.currentTime = JSNum.fin c ∧ 0 ≤ c ∧ c ≤ d) ∧
    (handleWindowMouseOrTouchUp s t true false false 4 false
        onChangeProvided).committedTime = some t ∧
    (handleWindowMouseOrTouchUp s t true false false 4 false
        onChangeProvided).listenersRemoved = true := by
  have hd0 : d ≠ 0 := ne_of_gt hd
  have hw0 : w ≠ 0 := ne_of_gt hw
  refine ⟨?_, ?_, rfl, rfl⟩
  · refine ⟨_, getCurrentProgress_simple d rectLeft w _, ?_⟩
    have hsub : rectLeft + t * w / d - rectLeft = t * w / d := by ring
    have h1 : ¬ t * w / d < 0 :=
      not_lt.mpr (div_nonneg (mul_nonneg ht0 hw.le) hd.le)
    have h2 : ¬ t * w / d > w := by
      refine not_lt.mpr ((div_le_iff₀ hd).mpr ?_)
      nlinarith
    simp only [hsub, if_neg h1, if_neg h2]
    have harg : d * (t * w / d) = t * w := by
      field_simp
    rw [harg]
    simp only [jsDivQ, if_neg hw0, JSNum.fin.injEq]
    field_simp
  · intro posX
    refine ⟨_, getCurrentProgress_simple d rectLeft w posX, ?_⟩
    have hrange : (0 : ℚ) ≤ (if posX - rectLeft < 0 then 0
        else if posX - rectLeft > w then w else posX - rectLeft) ∧
        (if posX - rectLeft < 0 then (0 : ℚ)
        else if posX - rectLeft > w then w else posX - rectLeft) ≤ w := by
      split_ifs with h1 h2
      · exact ⟨le_rfl, hw.le⟩
      · exact ⟨hw.le, le_rfl⟩
      · exact ⟨le_of_not_lt h1, le_of_not_lt h2⟩
    refine ⟨d * (if posX - rectLeft < 0 then 0
        else if posX - rectLeft > w then w else posX - rectLeft) / w,
      ?_, ?_, ?_⟩
    · simp only [jsDivQ, if_neg hw0]
    · exact div_nonneg (mul_nonneg hd.le hrange.1) hw.le
    · refine (div_le_iff₀ hw).mpr ?_
      calc d * (if posX - rectLeft < 0 then 0
            else if posX - rectLeft > w then w else posX - rectLeft)
          ≤ d * w := mul_le_mul_of_nonneg_left hrange.2 hd.le
        _ = d * w := rfl

/-- Claim C4 amended witness: the spec's scenario — duration 235, a
100-px surface, drag ending at 50% — computes and commits exactly
`117.5 = 235/2`. -/
theorem drag_commit_clamped_in_range_witness :
    (∃ info, getCurrentProgress false false none 235 true true 0 100
        (0 + 235 / 2 * 100 / 235) = some info ∧
        info.currentTime = JSNum.fin (235 / 2)) ∧
    (handleWindowMouseOrTouchUp pbDragging (235 / 2) true false false 4
        false false).committedTime = some (235 / 2) := by
  have h := drag_commit_clamped_in_range 235 100 0 (235 / 2) pbDragging
    false (by norm_num) (by norm_num) (by norm_num) (by norm_num)
  exact ⟨h.1, h.2.2.1⟩

/-- Claim C5 counterexample: when the `onSeek` hook is supplied and
rejects after a drag commits, `onChangeCurrentTimeError` is NOT invoked
— the rejection handler rethrows `new Error(err)` instead. -/
theorem hook_rejection_counterexample :
    (handleWindowMouseOrTouchUp pbDragging 10 true true true 4 false
        true).onChangeCurrentTimeErrorCalled = false ∧
    (handleWindowMouseOrTouchUp pbDragging 10 true true true 4 false
        true).rethrown = true :=
  ⟨rfl, rfl⟩

/-- Claim C5 amended: when the `onSeek` hook is supplied and rejects,
the controller does not mutate the resource's `currentTime`, but the
failure is rethrown as an uncaught error rather than routed through
`onChangeCurrentTimeError` (which stays uninvoked), and
`waitingForSeekCallback` remains set. -/
theorem hook_rejection_rethrown_no_commit (s : ProgressBarState)
    (newTime : ℚ) (newTimeFinite : Bool) (readyState : ℕ)
    (loadThrows onChangeProvided : Bool) :
    (handleWindowMouseOrTouchUp s newTime newTimeFinite true true
        readyState loadThrows onChangeProvided).committedTime = none ∧
    (handleWindowMouseOrTouchUp s newTime newTimeFinite true true
        readyState loadThrows onChangeProvided).rethrown = true ∧
    (handleWindowMouseOrTouchUp s newTime newTimeFinite true true
        readyState loadThrows
        onChangeProvided).onChangeCurrentTimeErrorCalled = false ∧
    (handleWindowMouseOrTouchUp s newTime newTimeFinite true true
        readyState loadThrows
        onChangeProvided).state.waitingForSeekCallback = true ∧
    (handleWindowMouseOrTouchUp s newTime newTimeFinite true true
        readyState loadThrows
        onChangeProvided).state.isDraggingProgress = false :=
  ⟨rfl, rfl, rfl, rfl, rfl⟩

/-- Claim C6 counterexample: when the play primitive rejects, the hook's
`play()` records `error = "Failed to play audio"` but forwards nothing
to any external error callback. -/
theorem play_rejection_no_callback_counterexample :
    (play apReady 4 false true).playPrimitiveCalled = true ∧
    (play apReady 4 false true).state.error =
      some "Failed to play audio" ∧
    (play apReady 4 false true).onErrorCalled = false := by
  refine ⟨?_, ?_, ?_⟩ <;> rfl

/-- Claim C6 amended: on play-primitive rejection the hook's `play()`
sets `error = "Failed to play audio"`, leaves `isPlaying` unchanged,
swallows the rejection (nothing escapes the component boundary), and
invokes no external error callback; forwarding the rejection to an
external callback (`onPlayError`) happens only in the
`RoundAudioPlayer` variant's `playAudioPromise`, which records no error
state. -/
theorem play_rejection_swallowed (s : AudioPlayerState)
    (readyState : ℕ) (hasMediaError : Bool)
    (h : ¬(readyState < 3 ∧ s.canPlay = false)) :
    (play s readyState hasMediaError true).state.error =
      some "Failed to play audio" ∧
    (play s readyState hasMediaError true).state.isPlaying =
      s.isPlaying ∧
    (play s readyState hasMediaError true).threw = false ∧
    (play s readyState hasMediaError true).onErrorCalled = false ∧
    (playAudioPromise hasMediaError true true).onPlayErrorCalled =
      true ∧
    (playAudioPromise hasMediaError true true).threw = false := by
  simp [play, h, playAudioPromise]

/-- Claim C6 amended witness: rejection from the ready state. -/
theorem play_rejection_swallowed_witness :
    (play apReady 4 false true).state.error =
      some "Failed to play audio" ∧
    (play apReady 4 false true).onErrorCalled = false ∧
    (playAudioPromise false true true).onPlayErrorCalled = true := by
  have h := play_rejection_swallowed apReady 4 false (by decide)
  exact ⟨h.1, h.2.2.2.1, h.2.2.2.2.1⟩

/-- Claim C7 counterexample: for buffered ranges `[(0,60),(90,235)]` and
duration `235` the code's fragments are `(left 0%, width 26%)` and
`(left 38%, width 62%)` — whole-percent `Math.round`, not the claimed
`25.5% / 38.3% / 61.7%`. -/
theorem buffered_rounding_counterexample :
    handleAudioDownloadProgressUpdate 235 [(0, 60), (90, 235)] =
      [⟨"0%", "26%"⟩, ⟨"38%", "62%"⟩] ∧
    handleAudioDownloadProgressUpdate 235 [(0, 60), (90, 235)] ≠
      [⟨"0%", "25.5%"⟩, ⟨"38.3%", "61.7%"⟩] := by
  have hd : (235 : ℚ) ≠ 0 := by norm_num
  have h1 : jsRound (0 : ℚ) = 0 := by
    norm_num [jsRound, Int.floor_eq_iff]
  have h2 : jsRound ((100 : ℚ) / 235 * 60) = 26 := by
    norm_num [jsRound, Int.floor_eq_iff]
  have h3 : jsRound ((100 : ℚ) / 235 * 90) = 38 := by
    norm_num [jsRound, Int.floor_eq_iff]
  have h4 : jsRound ((100 : ℚ) / 235 * (235 - 90)) = 62 := by
    norm_num [jsRound, Int.floor_eq_iff]
  have hmain : handleAudioDownloadProgressUpdate 235 [(0, 60), (90, 235)] =
      [⟨"0%", "26%"⟩, ⟨"38%", "62%"⟩] := by
    simp [handleAudioDownloadProgressUpdate, jsDivQ, hd, jsMul,
      roundOrZeroStr, h1, h2, h3, h4]
    decide
  refine ⟨hmain, ?_⟩
  rw [hmain]
  decide

/-- Claim C7 amended: each buffered range `(start, end)` is rendered at
`left = Math.round(100 * start / duration)` percent and
`width = Math.round(100 * (end - start) / duration)` percent (whole
percents, half rounded up); for the scenario this gives fragments
`(0%, 26%)` and `(38%, 62%)`. -/
theorem buffered_fragments_rounded :
    handleAudioDownloadProgressUpdate 235 [(0, 60), (90, 235)] =
      [⟨"0%", "26%"⟩, ⟨"38%", "62%"⟩] ∧
    ∀ (d : ℚ) (buffered : List (ℚ × ℚ)), d ≠ 0 →
      handleAudioDownloadProgressUpdate d buffered =
        buffered.map (fun r =>
          ⟨toString (jsRound (100 / d * r.1)) ++ "%",
           toString (jsRound (100 / d * (r.2 - r.1))) ++ "%"⟩) := by
  constructor
  · have hd : (235 : ℚ) ≠ 0 := by norm_num
    have h1 : jsRound (0 : ℚ) = 0 := by
      norm_num [jsRound, Int.floor_eq_iff]
    have h2 : jsRound ((100 : ℚ) / 235 * 60) = 26 := by
      norm_num [jsRound, Int.floor_eq_iff]
    have h3 : jsRound ((100 : ℚ) / 235 * 90) = 38 := by
      norm_num [jsRound, Int.floor_eq_iff]
    have h4 : jsRound ((100 : ℚ) / 235 * (235 - 90)) = 62 := by
      norm_num [jsRound, Int.floor_eq_iff]
    simp [handleAudioDownloadProgressUpdate, jsDivQ, hd, jsMul,
      roundOrZeroStr, h1, h2, h3, h4]
    decide
  · intro d buffered hd
    simp [handleAudioDownloadProgressUpdate, jsDivQ, hd, jsMul,
      roundOrZeroStr]

/-- Claim C7 amended witness: the general fragment formula at duration
235 and the single range `(0, 60)`. -/
theorem buffered_fragments_rounded_witness :
    handleAudioDownloadProgressUpdate 235 [(0, 60)] =
      [⟨toString (jsRound ((100 : ℚ) / 235 * 0)) ++ "%",
        toString (jsRound ((100 : ℚ) / 235 * (60 - 0))) ++ "%"⟩] :=
  buffered_fragments_rounded.2 235 [(0, 60)] (by norm_num)

/-- Claim C8 counterexample: with a zero-width bounding box (duration
235, pointer at x = 5) the computed position is `NaN` and the position
string is `"NaN%"` — not the claimed 0% / target time 0. -/
theorem zero_width_nan_counterexample :
    getCurrentProgress false false none 235 true true 0 0 5 =
      some ⟨JSNum.nan, "NaN%"⟩ ∧
    getCurrentProgress false false none 235 true true 0 0 5 ≠
      some ⟨JSNum.fin 0, "0%"⟩ := by
  have hmain : getCurrentProgress false false none 235 true true 0 0 5 =
      some ⟨JSNum.nan, "NaN%"⟩ := by
    rw [getCurrentProgress_simple]
    norm_num [jsDivQ, jsMul, jsToFixed2]
    decide
  refine ⟨hmain, ?_⟩
  rw [hmain]
  decide

/-- Claim C8 amended: when the duration is 0, the advanced player's
click-to-seek handler returns without committing anything; a zero-width
surface makes `getCurrentProgress` compute a `NaN` position (displayed
as `"NaN%"`, not `"0%"`), which the pointer-down handler's finiteness
guard then discards — no drag session starts, the state is unchanged,
and no time is ever committed. -/
theorem zero_width_and_zero_duration_guard :
    (∀ (refPresent : Bool) (rectLeft rectWidth clientX : ℚ),
        handleWaveformClick refPresent 0 rectLeft rectWidth clientX =
          none) ∧
    (∀ (d rectLeft posX : ℚ),
        getCurrentProgress false false none d true true rectLeft 0 posX =
          some ⟨JSNum.nan, "NaN%"⟩) ∧
    (∀ s : ProgressBarState,
        (handleMouseDownOrTouchStart s
          ⟨JSNum.nan, "NaN%"⟩).sessionStarted = false ∧
        (handleMouseDownOrTouchStart s ⟨JSNum.nan, "NaN%"⟩).state = s ∧
        (handleMouseDownOrTouchStart s
          ⟨JSNum.nan, "NaN%"⟩).timeOnMouseMove = none) := by
  refine ⟨?_, ?_, ?_⟩
  · intro refPresent rectLeft rectWidth clientX
    simp [handleWaveformClick]
  · intro d rectLeft posX
    rw [getCurrentProgress_simple]
    have hrp : (if posX - rectLeft < 0 then (0 : ℚ)
        else if posX - rectLeft > 0 then 0 else posX - rectLeft) = 0 := by
      split_ifs with h1 h2
      · rfl
      · rfl
      · linarith [le_of_not_lt h1, le_of_not_lt h2]
    rw [hrp]
    norm_num [jsDivQ, jsMul, jsToFixed2]
    decide
  · intro s
    exact ⟨rfl, rfl, rfl⟩
